import Mathlib

/-!
Verification development for the AirVoice overlay repository.

The embedding follows the Python sources:
  * `src/overlay/state_machine.py` — `OverlayState`, the payload dataclasses
    (`ActionData`, `GestureData`, `KeyData`, `KeypadData`) and
    `OverlayStateMachine`;
  * `src/overlay/voice_input.py` — the VAD capture loop of
    `VoiceInputWorker._run_loop`, its level computation and
    `_process_speech`;
  * `src/overlay/overlay_window.py` — the action auto-hide timer logic
    (`_on_state_changed`, `_hide_action`) together with
    `src/overlay/config.py`'s `AccessibilityMode`.

Python floats are modelled as rationals; `None`-able arguments and fields as
`Option`; a listener callback is modelled as a function returning
`Option String` where `some msg` stands for a raised exception that the
machine catches and logs (the machine itself never propagates it).  Side
effects are made observable by returning them: a transition returns, next to
the updated machine, the list of listener outcomes in invocation order, one
entry per registered listener.
-/

/-- `OverlayState` enum from `state_machine.py`. -/
inductive OverlayState
  | IDLE
  | LISTENING
  | PROCESSING
  | ACTION
  | GESTURE
  | KEYPAD
deriving DecidableEq, Repr

/-- `ActionData` dataclass: `message: str = ""`, `icon: Optional[str] = None`. -/
structure ActionData where
  message : String
  icon : Option String
deriving DecidableEq, Repr

/-- Default-constructed `ActionData()`. -/
def initActionData : ActionData := ⟨"", none⟩

/-- `GestureData` dataclass.  The landmark list elements are opaque to the
state machine; they are modelled as natural numbers. -/
structure GestureData where
  hand_landmarks : List Nat
  active_finger : Option Int
  hover_key : Option String
deriving DecidableEq, Repr

/-- Default-constructed `GestureData()`: empty landmark list, `None` fields. -/
def initGestureData : GestureData := ⟨[], none, none⟩

/-- `KeyData` dataclass: label, code, width multiplier (default 1.0) and the
`is_action` flag (default False). -/
structure KeyData where
  label : String
  code : String
  width : ℚ
  is_action : Bool
deriving DecidableEq, Repr

/-- Helper mirroring the Python list comprehensions
`[KeyData(k, k) for k in "…"]`. -/
def charKeys (s : String) : List KeyData :=
  s.toList.map (fun c => ⟨c.toString, c.toString, 1, false⟩)

/-- The default factory of `KeypadData.rows` in `state_machine.py`
(lines 46–54): two rows only, the second starting `mwertyuiop` — the
source's own comments note the typo and that the remaining rows were meant
to be built elsewhere. -/
def keypadDefaultRows : List (List KeyData) :=
  [ charKeys "`1234567890-=" ++ [⟨"Back", "backspace", 2, true⟩],
    [⟨"Tab", "tab", 3/2, true⟩] ++ charKeys "mwertyuiop[]\\" ]

/-- The rows that `KeypadData._init_layout` would assign: the intended
5-row laptop layout (lines 61–75).  The apostrophe key of row 3 is written
via `Char.ofNat 39`. -/
def init_layout_rows : List (List KeyData) :=
  [ charKeys "`1234567890-=" ++ [⟨"⌫", "backspace", 2, true⟩],
    [⟨"Tab", "tab", 3/2, true⟩] ++ charKeys "qwertyuiop[]\\",
    [⟨"Caps", "capslock", 9/5, true⟩] ++
      charKeys (String.mk ("asdfghjkl;".toList ++ [Char.ofNat 39])) ++
      [⟨"Enter", "enter", 11/5, true⟩],
    [⟨"Shift", "shift", 23/10, true⟩] ++ charKeys "zxcvbnm,./" ++
      [⟨"Shift", "shift", 23/10, true⟩],
    [⟨"Ctrl", "ctrl", 3/2, true⟩, ⟨"Win", "win", 3/2, true⟩,
     ⟨"Alt", "alt", 3/2, true⟩, ⟨"SPACE", "space", 6, false⟩,
     ⟨"Alt", "alt", 3/2, true⟩, ⟨"Fn", "fn", 3/2, true⟩,
     ⟨"Ctrl", "ctrl", 3/2, true⟩] ]

/-- `KeypadData` dataclass: optional active key plus the row layout. -/
structure KeypadData where
  active_key : Option String
  rows : List (List KeyData)
deriving DecidableEq, Repr

/-- `KeypadData.__post_init__`: `_init_layout` runs only when `rows` is
empty. -/
def keypadPostInit (kd : KeypadData) : KeypadData :=
  if kd.rows.isEmpty then { kd with rows := init_layout_rows } else kd

/-- A freshly constructed `KeypadData()`: the default factory rows, then
`__post_init__`. -/
def mkKeypadData : KeypadData :=
  keypadPostInit ⟨none, keypadDefaultRows⟩

/-- A state-change listener.  `none` models a normal return, `some msg` a
raised exception (caught and logged by `_notify_listeners`). -/
abbrev Listener := OverlayState → OverlayState → Option String

/-- `OverlayStateMachine` fields (`__init__`). -/
structure OverlayStateMachine where
  state : OverlayState
  previous_state : OverlayState
  listeners : List Listener
  action_data : ActionData
  gesture_data : GestureData
  keypad_data : KeypadData
  audio_level : ℚ

/-- `OverlayStateMachine.__init__`: Idle, no listeners, default payloads. -/
def initMachine : OverlayStateMachine :=
  ⟨OverlayState.IDLE, OverlayState.IDLE, [], initActionData, initGestureData,
   mkKeypadData, 0⟩

/-- `_notify_listeners`: every listener is invoked in registration order
with `(old_state, new_state)`; an exception (`some msg`) is caught, so the
iteration continues and nothing escapes.  The outcomes are returned as the
observable trace, one entry per listener. -/
def notify_listeners (ls : List Listener) (old_state new_state : OverlayState) :
    List (Option String) :=
  ls.map (fun l => l old_state new_state)

/-- `transition_to`: guarded on `new_state != self._state`; on an actual
change it records the previous state, sets the new one and notifies.  The
second component is the notification trace (empty when no listener was
invoked). -/
def transition_to (m : OverlayStateMachine) (new_state : OverlayState) :
    OverlayStateMachine × List (Option String) :=
  if new_state ≠ m.state then
    ({ m with previous_state := m.state, state := new_state },
     notify_listeners m.listeners m.state new_state)
  else (m, [])

/-- `set_idle`. -/
def set_idle (m : OverlayStateMachine) : OverlayStateMachine × List (Option String) :=
  transition_to m OverlayState.IDLE

/-- `set_listening(audio_level=0.0)`: assigns `audio_level` unconditionally,
then transitions. -/
def set_listening (m : OverlayStateMachine) (audio_level : ℚ) :
    OverlayStateMachine × List (Option String) :=
  transition_to { m with audio_level := audio_level } OverlayState.LISTENING

/-- `update_audio_level(level)`: clamps to `[0, 1]`, no transition. -/
def update_audio_level (m : OverlayStateMachine) (level : ℚ) : OverlayStateMachine :=
  { m with audio_level := max 0 (min 1 level) }

/-- `set_processing`. -/
def set_processing (m : OverlayStateMachine) : OverlayStateMachine × List (Option String) :=
  transition_to m OverlayState.PROCESSING

/-- `set_action(message, icon=None)`: replaces `action_data` wholesale
(before the guarded transition). -/
def set_action (m : OverlayStateMachine) (message : String) (icon : Option String) :
    OverlayStateMachine × List (Option String) :=
  transition_to { m with action_data := ⟨message, icon⟩ } OverlayState.ACTION

/-- `set_gesture(landmarks=None, active_finger=None, hover_key=None)`:
replaces `gesture_data` wholesale; `landmarks or []` collapses `None` (and
the empty list) to `[]`. -/
def set_gesture (m : OverlayStateMachine) (landmarks : Option (List Nat))
    (active_finger : Option Int) (hover_key : Option String) :
    OverlayStateMachine × List (Option String) :=
  transition_to
    { m with gesture_data := ⟨landmarks.getD [], active_finger, hover_key⟩ }
    OverlayState.GESTURE

/-- `update_gesture(...)`: each field is overwritten only when the argument
`is not None`; no transition. -/
def update_gesture (m : OverlayStateMachine) (landmarks : Option (List Nat))
    (active_finger : Option Int) (hover_key : Option String) : OverlayStateMachine :=
  let gd := m.gesture_data
  let gd := match landmarks with
    | some l => { gd with hand_landmarks := l }
    | none => gd
  let gd := match active_finger with
    | some f => { gd with active_finger := some f }
    | none => gd
  let gd := match hover_key with
    | some k => { gd with hover_key := some k }
    | none => gd
  { m with gesture_data := gd }

/-- `set_keypad(active_key=None)`: sets the active key on the existing
`keypad_data` (layout preserved), then transitions. -/
def set_keypad (m : OverlayStateMachine) (active_key : Option String) :
    OverlayStateMachine × List (Option String) :=
  transition_to { m with keypad_data := { m.keypad_data with active_key := active_key } }
    OverlayState.KEYPAD

/-- `update_keypad(active_key)`: in-place update, no transition. -/
def update_keypad (m : OverlayStateMachine) (active_key : Option String) :
    OverlayStateMachine :=
  { m with keypad_data := { m.keypad_data with active_key := active_key } }

/-!
### Voice input — `voice_input.py`

`VoiceInputWorker._run_loop` computes, per dequeued audio block, the RMS of
the samples normalized by 32768 and emits `rms * 10.0` as the audio level;
it then runs the VAD: the silence timer starts at the wall-clock time of the
first below-threshold frame while speaking, and the buffered speech is
processed when `time.time() - silence_start_time > silence_duration`
(strict).  Frames are identified by their index in the stream and assumed to
be processed at a fixed cadence `dt`, so frame `i` is handled at time
`i * dt`.
-/

/-- `(s / 32768.0) ** 2` for one 16-bit sample. -/
def normSq (s : ℤ) : ℚ := ((s : ℚ) / 32768) ^ 2

/-- `np.mean(floats ** 2)` over a frame. -/
def meanSquares (samples : List ℤ) : ℚ :=
  (samples.map normSq).sum / (samples.length : ℚ)

/-- The audio level the loop emits for a frame is `rms * 10.0` where
`rms = sqrt(meanSquares)`.  Since the square root of a rational need not be
rational, the emitted value is characterized by its sign and square: `l` is
the emitted level iff `0 ≤ l` and `l ^ 2 = 100 * meanSquares samples`. -/
def emitsLevel (samples : List ℤ) (l : ℚ) : Prop :=
  0 ≤ l ∧ l ^ 2 = 100 * meanSquares samples

/-- Second definition following the spec's words (§4.4 LevelMeter), for
comparison with `emitsLevel`: the reported level is the RMS of the
normalized samples, scaled by the gain factor 10 and then clamped to
`[0, 1]`. -/
def specReportedLevel (samples : List ℤ) (l : ℚ) : Prop :=
  ∃ r, 0 ≤ r ∧ r ^ 2 = meanSquares samples ∧ l = max 0 (min 1 (10 * r))

/-- VAD parameters of `_run_loop` (`silence_threshold`,
`silence_duration`).  Loudness is a rational; wall-clock durations are
measured in whole milliseconds (the scenario's 16 ms cadence and 1.0 s
duration are exact in this unit, and `time.time()` comparisons are
order-isomorphic under the change of unit). -/
structure VadParams where
  silence_threshold : ℚ
  silence_duration : Nat

/-- VAD session state of `_run_loop` (`speech_buffer` holds frame indices,
`is_speaking`, `silence_start_time` a timestamp in milliseconds). -/
structure VadState where
  speech_buffer : List Nat
  is_speaking : Bool
  silence_start_time : Option Nat
deriving DecidableEq, Repr

/-- Initial VAD state: empty buffer, not speaking, no timer. -/
def initVadState : VadState := ⟨[], false, none⟩

/-- One iteration of the VAD body of `_run_loop` for frame `frame` with
loudness `rms` processed at wall-clock time `now` (ms; `now` is never
earlier than a recorded `silence_start_time`, so natural subtraction agrees
with the source's real-valued subtraction).  Returns the next state and the
utterance handed to `_process_speech`, if any. -/
def vadStep (p : VadParams) (s : VadState) (frame : Nat) (rms : ℚ) (now : Nat) :
    VadState × Option (List Nat) :=
  if rms > p.silence_threshold then
    (⟨s.speech_buffer ++ [frame], true, none⟩, none)
  else if s.is_speaking then
    let buf := s.speech_buffer ++ [frame]
    match s.silence_start_time with
    | none => (⟨buf, s.is_speaking, some now⟩, none)
    | some t0 =>
      if now - t0 > p.silence_duration then
        (⟨[], false, none⟩, some buf)
      else
        (⟨buf, s.is_speaking, some t0⟩, none)
  else (s, none)

/-- Run the VAD over a stream of loudness values starting at frame index
`i`, frame `j` being processed at time `j * dt` (ms).  Returns the final
state and the list of emitted utterances in order. -/
def vadRunFrom (p : VadParams) (dt : Nat) (s : VadState) (i : Nat) :
    List ℚ → VadState × List (List Nat)
  | [] => (s, [])
  | rms :: rest =>
    let step := vadStep p s i rms (i * dt)
    let tail := vadRunFrom p dt step.1 (i + 1) rest
    (tail.1, step.2.toList ++ tail.2)

/-- Run the VAD over a whole stream from the initial state. -/
def vadRun (p : VadParams) (dt : Nat) (stream : List ℚ) :
    VadState × List (List Nat) :=
  vadRunFrom p dt initVadState 0 stream

/-- Outcome of the recognizer call inside `_process_speech`. -/
inductive RecognizeResult
  | recognized (text : String)
  | unknown_value
  | request_error (msg : String)
deriving DecidableEq, Repr

/-- `_process_speech(valid_frames)`: returns early on an empty frame list
(no transcription attempt); otherwise concatenates the frames and calls the
recognizer on the result.  `none` models "no transcription attempt was
made". -/
def process_speech (recognize : List ℤ → RecognizeResult)
    (valid_frames : List (List ℤ)) : Option RecognizeResult :=
  if valid_frames.isEmpty then none
  else some (recognize valid_frames.flatten)

/-!
### Overlay window timer logic — `overlay_window.py`, `config.py`
-/

/-- `AccessibilityMode` enum from `config.py`. -/
inductive AccessibilityMode
  | NORMAL
  | MINIMAL
  | AUDIO_ONLY
deriving DecidableEq, Repr

/-- The action auto-hide part of `OverlayWindow._on_state_changed`: the
handler returns immediately when the accessibility mode is AUDIO_ONLY
(before any timer handling); otherwise it starts the action timer exactly
when the new state is ACTION.  The result is whether
`action_timer.start(...)` was called. -/
def on_state_changed_starts_timer (mode : AccessibilityMode)
    (new_state : OverlayState) : Bool :=
  if mode = AccessibilityMode.AUDIO_ONLY then false
  else new_state = OverlayState.ACTION

/-- `OverlayWindow._hide_action`: on timer expiry, transition to Idle only
if the current state is still ACTION. -/
def hide_action (m : OverlayStateMachine) :
    OverlayStateMachine × List (Option String) :=
  if m.state = OverlayState.ACTION then set_idle m else (m, [])

/-!
### Concrete machines and streams used by the scenarios
-/

/-- A machine that has entered ACTION with a toast message. -/
def actionMachine : OverlayStateMachine :=
  (set_action initMachine "Opening Chrome..." none).1

/-- A machine that has entered LISTENING. -/
def listeningMachine : OverlayStateMachine :=
  (set_listening initMachine 0).1

/-- A machine that has entered GESTURE with all gesture fields populated. -/
def gestureMachine : OverlayStateMachine :=
  (set_gesture initMachine (some [1, 2]) (some 1) (some "a")).1

/-- A machine that has entered KEYPAD. -/
def keypadMachine : OverlayStateMachine :=
  (set_keypad initMachine none).1

/-- Scenario A parameters: `silence_threshold = 0.02`,
`trailing_silence_duration = 1.0 s = 1000 ms`. -/
def scenarioParams : VadParams := ⟨mkRat 1 50, 1000⟩

/-- Scenario A stream: 5 speech frames of loudness `0.05` followed by 63
silent frames of loudness `0.001`, one frame every 16 ms. -/
def scenarioAStream : List ℚ :=
  List.replicate 5 (mkRat 1 20) ++ List.replicate 63 (mkRat 1 1000)

/-- Scenario A stream extended to 64 silent frames, the least count for
which the loop's strict elapsed-time test fires. -/
def scenarioAStreamExt : List ℚ :=
  List.replicate 5 (mkRat 1 20) ++ List.replicate 64 (mkRat 1 1000)

/-- A listener that raises on every call (the exception text is what
`_notify_listeners` catches and logs). -/
def raising_listener : Listener := fun _ _ => some "boom"

/-- A listener that returns normally on every call; its recorded call count
is the number of trace entries it contributes. -/
def counting_listener : Listener := fun _ _ => none

/-- Scenario D machine: the raising listener registered alongside the
counting listener. -/
def scenarioDMachine : OverlayStateMachine :=
  { initMachine with listeners := [raising_listener, counting_listener] }

/-- Scenario D, first transition: Idle → Listening. -/
def scenarioD1 : OverlayStateMachine × List (Option String) :=
  set_listening scenarioDMachine 0

/-- Scenario D, second transition: Listening → Processing. -/
def scenarioD2 : OverlayStateMachine × List (Option String) :=
  set_processing scenarioD1.1

/-- Scenario D, third transition: Processing → Action. -/
def scenarioD3 : OverlayStateMachine × List (Option String) :=
  set_action scenarioD2.1 "Done" none

/-- The full-scale-half frame: one block of 1024 samples, each 16384
(normalized value `0.5`, an exactly representable RMS). -/
def fullHalfFrame : List ℤ := List.replicate 1024 16384

/-!
## Theorems
-/

/-- C1 (counterexample): calling `set_action` while already in ACTION
notifies nobody, yet the ActionData payload IS replaced — the payload
assignment precedes the guarded `transition_to`, so the call is not a
no-op on the payload. -/
theorem c1_counterexample :
    actionMachine.state = OverlayState.ACTION ∧
    actionMachine.action_data.message = "Opening Chrome..." ∧
    (set_action actionMachine "Done" none).2 = [] ∧
    (set_action actionMachine "Done" none).1.action_data.message = "Done" :=
  ⟨rfl, rfl, rfl, rfl⟩

/-- C1 (amended): a `set_*` call whose target state equals the current
state produces no listener notification and leaves the current and previous
state unchanged, but its payload write still applies: `set_action` replaces
`action_data`, `set_listening` overwrites `audio_level`, `set_gesture`
replaces `gesture_data`, and `set_keypad` overwrites `active_key`. -/
theorem c1_theorem :
    (∀ (m : OverlayStateMachine) (msg : String) (icon : Option String),
      m.state = OverlayState.ACTION →
        (set_action m msg icon).2 = [] ∧
        (set_action m msg icon).1.state = m.state ∧
        (set_action m msg icon).1.previous_state = m.previous_state ∧
        (set_action m msg icon).1.action_data = ⟨msg, icon⟩) ∧
    (∀ (m : OverlayStateMachine) (a : ℚ),
      m.state = OverlayState.LISTENING →
        (set_listening m a).2 = [] ∧
        (set_listening m a).1.state = m.state ∧
        (set_listening m a).1.previous_state = m.previous_state ∧
        (set_listening m a).1.audio_level = a) ∧
    (∀ (m : OverlayStateMachine) (lm : Option (List Nat)) (af : Option Int)
        (hk : Option String),
      m.state = OverlayState.GESTURE →
        (set_gesture m lm af hk).2 = [] ∧
        (set_gesture m lm af hk).1.state = m.state ∧
        (set_gesture m lm af hk).1.gesture_data = ⟨lm.getD [], af, hk⟩) ∧
    (∀ (m : OverlayStateMachine) (k : Option String),
      m.state = OverlayState.KEYPAD →
        (set_keypad m k).2 = [] ∧
        (set_keypad m k).1.state = m.state ∧
        (set_keypad m k).1.keypad_data.active_key = k ∧
        (set_keypad m k).1.keypad_data.rows = m.keypad_data.rows) := by
  refine ⟨?_, ?_, ?_, ?_⟩ <;> intro m
  · intro msg icon h
    simp [set_action, transition_to, h]
  · intro a h
    simp [set_listening, transition_to, h]
  · intro lm af hk h
    simp [set_gesture, transition_to, h]
  · intro k h
    simp [set_keypad, transition_to, h]

/-- C1 (witness): the amended statement instantiated on concrete machines
sitting in each of the four payload-carrying states. -/
theorem c1_witness :
    ((set_action actionMachine "Done" none).2 = [] ∧
     (set_action actionMachine "Done" none).1.state = actionMachine.state ∧
     (set_action actionMachine "Done" none).1.previous_state =
       actionMachine.previous_state ∧
     (set_action actionMachine "Done" none).1.action_data = ⟨"Done", none⟩) ∧
    ((set_listening listeningMachine 2).2 = [] ∧
     (set_listening listeningMachine 2).1.state = listeningMachine.state ∧
     (set_listening listeningMachine 2).1.previous_state =
       listeningMachine.previous_state ∧
     (set_listening listeningMachine 2).1.audio_level = 2) ∧
    ((set_gesture gestureMachine none none none).2 = [] ∧
     (set_gesture gestureMachine none none none).1.state = gestureMachine.state ∧
     (set_gesture gestureMachine none none none).1.gesture_data =
       ⟨[], none, none⟩) ∧
    ((set_keypad keypadMachine (some "a")).2 = [] ∧
     (set_keypad keypadMachine (some "a")).1.state = keypadMachine.state ∧
     (set_keypad keypadMachine (some "a")).1.keypad_data.active_key = some "a" ∧
     (set_keypad keypadMachine (some "a")).1.keypad_data.rows =
       keypadMachine.keypad_data.rows) :=
  ⟨c1_theorem.1 actionMachine "Done" none rfl,
   c1_theorem.2.1 listeningMachine 2 rfl,
   c1_theorem.2.2.1 gestureMachine none none none rfl,
   c1_theorem.2.2.2 keypadMachine (some "a") rfl⟩

/-- C2 (code evaluation at the failing input): a freshly constructed
`KeypadData` keeps the 2-row default-factory layout — `__post_init__` runs
`_init_layout` only on an empty `rows`, and the default factory is
non-empty — so the layout has 2 rows (the second starting `Tab, m, w, e,
r, t, y, u, i, o, p`, the typo the source comments flag), not the intended
5-row layout of `_init_layout`. -/
theorem c2_theorem :
    mkKeypadData.rows.length = 2 ∧
    init_layout_rows.length = 5 ∧
    ((mkKeypadData.rows.getD 1 []).map KeyData.label).take 11 =
      ["Tab", "m", "w", "e", "r", "t", "y", "u", "i", "o", "p"] :=
  ⟨rfl, rfl, by decide⟩

/-- C3 (counterexample): Scenario A as claimed — threshold `0.02`,
trailing silence `1.0 s`, stream `[0.05]*5 ++ [0.001]*63` at 16 ms/frame —
emits NO utterance: the silence timer starts at the first silent frame, so
only `62 * 16 = 992 ms < 1000 ms` have elapsed at the last frame and the
strict `>` test never fires; the loop is still speaking with all 68 frames
buffered, instead of having emitted one 68-frame utterance and returned to
Silent. -/
theorem c3_counterexample :
    (vadRun scenarioParams 16 scenarioAStream).2 = [] ∧
    (vadRun scenarioParams 16 scenarioAStream).1.is_speaking = true ∧
    (vadRun scenarioParams 16 scenarioAStream).1.speech_buffer.length = 68 :=
  ⟨by decide, by decide, by decide⟩

/-- C3 (amended): an utterance is finalized at the first silent frame
strictly more than `trailing_silence_duration` after the FIRST silent
frame (not the last speech frame); with 64 silent frames
(`63 * 16 = 1008 ms > 1000 ms`) exactly one utterance is emitted,
containing every frame from speech onset through the final silent frame
(frames 0–68), the buffer is cleared and the segmenter returns to
Silent. -/
theorem c3_theorem :
    (vadRun scenarioParams 16 scenarioAStreamExt).2 = [List.range 69] ∧
    (vadRun scenarioParams 16 scenarioAStreamExt).1 = initVadState :=
  ⟨by decide, by decide⟩

/-- C4 (counterexample): `set_listening` stores its argument unclamped, so
after `set_listening(2.0)` the stored `audio_level` is `2`, outside
`[0, 1]`. -/
theorem c4_counterexample :
    (set_listening initMachine 2).1.audio_level = 2 ∧ ¬ ((2 : ℚ) ≤ 1) :=
  ⟨rfl, by norm_num⟩

/-- C4 (amended): `update_audio_level(x)` stores exactly `clamp(x, 0, 1)`
regardless of the current state (which it never changes), and that stored
value lies in `[0, 1]`; `set_listening(a)`, by contrast, stores the raw
argument `a` unclamped. -/
theorem c4_theorem (m : OverlayStateMachine) (x a : ℚ) :
    (update_audio_level m x).audio_level = max 0 (min 1 x) ∧
    0 ≤ (update_audio_level m x).audio_level ∧
    (update_audio_level m x).audio_level ≤ 1 ∧
    (update_audio_level m x).state = m.state ∧
    (update_audio_level m x).previous_state = m.previous_state ∧
    (set_listening m a).1.audio_level = a := by
  refine ⟨rfl, le_max_left 0 _, max_le (by norm_num) (min_le_left 1 x), rfl, rfl, ?_⟩
  unfold set_listening transition_to
  split <;> rfl

/-- C5 (counterexample): on a full block of samples at half scale the loop
reports level `5` (RMS `0.5` boosted by the gain `10`), while the spec's
clamped formula yields `1`; the reported level is not clamped to
`[0, 1]`. -/
theorem c5_counterexample :
    emitsLevel fullHalfFrame 5 ∧
    specReportedLevel fullHalfFrame 1 ∧
    ¬ ((5 : ℚ) ≤ 1) := by
  have hmean : meanSquares fullHalfFrame = 1 / 4 := by
    unfold meanSquares fullHalfFrame
    rw [List.map_replicate, List.sum_replicate, List.length_replicate,
      nsmul_eq_mul]
    norm_num [normSq]
  refine ⟨⟨by norm_num, ?_⟩, ⟨1 / 2, by norm_num, ?_, ?_⟩, by norm_num⟩
  · rw [hmean]; norm_num
  · rw [hmean]; norm_num
  · norm_num

/-- C5 (amended): the reported level is `10 * RMS` of the normalized
samples with no clamping; on a constant frame of `n > 0` samples of
non-negative value `c` the reported level is exactly `10 * c / 32768`,
which exceeds `1` whenever `c > 3276.8`. -/
theorem c5_theorem (n : ℕ) (c : ℤ) (hn : 0 < n) (hc : 0 ≤ c) :
    emitsLevel (List.replicate n c) (10 * (c : ℚ) / 32768) := by
  constructor
  · apply div_nonneg _ (by norm_num)
    have : (0 : ℚ) ≤ (c : ℚ) := by exact_mod_cast hc
    linarith
  · have hn' : (n : ℚ) ≠ 0 := Nat.cast_ne_zero.mpr hn.ne'
    unfold meanSquares
    rw [List.map_replicate, List.sum_replicate, List.length_replicate,
      nsmul_eq_mul]
    unfold normSq
    field_simp
    ring

/-- C5 (witness): the amended statement instantiated on the half-scale
block. -/
theorem c5_witness :
    0 < 1024 ∧ 0 ≤ (16384 : ℤ) ∧
    emitsLevel (List.replicate 1024 16384) (10 * (16384 : ℚ) / 32768) :=
  ⟨by norm_num, by norm_num, c5_theorem 1024 16384 (by norm_num) (by norm_num)⟩

/-- C6 (counterexample): `_process_speech` on the empty frame list returns
early — no transcription attempt is made, contradicting "including the
empty list, a transcription attempt is made". -/
theorem c6_counterexample :
    process_speech (fun _ => RecognizeResult.unknown_value) [] = none := rfl

/-- C6 (amended): every NON-empty buffered frame list is passed through to
the recognizer without validation (the frames are concatenated and a
transcription attempt is always made); the empty list alone is rejected by
the early-return guard and no attempt is made. -/
theorem c6_theorem (recognize : List ℤ → RecognizeResult)
    (frames : List (List ℤ)) :
    (frames = [] → process_speech recognize frames = none) ∧
    (frames ≠ [] → process_speech recognize frames =
      some (recognize frames.flatten)) := by
  constructor
  · intro h
    subst h
    rfl
  · intro h
    simp [process_speech, h]

/-- C6 (witness): the amended statement instantiated on the empty list and
on a concrete two-block buffer. -/
theorem c6_witness :
    process_speech (fun _ => RecognizeResult.unknown_value)
      ([] : List (List ℤ)) = none ∧
    process_speech (fun _ => RecognizeResult.unknown_value) [[1, 2], [3]] =
      some RecognizeResult.unknown_value :=
  ⟨(c6_theorem (fun _ => RecognizeResult.unknown_value) []).1 rfl,
   (c6_theorem (fun _ => RecognizeResult.unknown_value) [[1, 2], [3]]).2
     (by simp)⟩

/-- C7: on every actual transition each listener is invoked with
`(old_state, new_state)` in registration order — the trace has one outcome
per registered listener, raised exceptions included, and the transition is
never rolled back; Scenario D: with the always-raising listener registered
alongside the counting listener, all 3 transitions deliver both calls (the
counting listener records 3 calls) and every operation returns normally. -/
theorem c7_theorem :
    (∀ (m : OverlayStateMachine) (ns : OverlayState), ns ≠ m.state →
      (transition_to m ns).2 = m.listeners.map (fun l => l m.state ns) ∧
      (transition_to m ns).1.state = ns ∧
      (transition_to m ns).1.previous_state = m.state) ∧
    scenarioD1.2 = [some "boom", none] ∧
    scenarioD2.2 = [some "boom", none] ∧
    scenarioD3.2 = [some "boom", none] ∧
    scenarioD3.1.state = OverlayState.ACTION := by
  refine ⟨?_, rfl, rfl, rfl, rfl⟩
  intro m ns h
  unfold transition_to
  rw [if_pos h]
  exact ⟨rfl, rfl, rfl⟩

/-- C7 (witness): the general part instantiated on the Scenario D machine
for the Idle → Gesture transition. -/
theorem c7_witness :
    (transition_to scenarioDMachine OverlayState.GESTURE).2 =
      scenarioDMachine.listeners.map
        (fun l => l scenarioDMachine.state OverlayState.GESTURE) ∧
    (transition_to scenarioDMachine OverlayState.GESTURE).1.state =
      OverlayState.GESTURE ∧
    (transition_to scenarioDMachine OverlayState.GESTURE).1.previous_state =
      scenarioDMachine.state :=
  c7_theorem.1 scenarioDMachine OverlayState.GESTURE (by decide)

/-- C8 (counterexample): entering ACTION with accessibility mode AUDIO_ONLY
does not start the auto-hide timer — `_on_state_changed` returns before the
timer handling — so the timer is not started on every entry to Action. -/
theorem c8_counterexample :
    on_state_changed_starts_timer AccessibilityMode.AUDIO_ONLY
      OverlayState.ACTION = false := rfl

/-- C8 (amended): when the auto-hide timer fires, the machine transitions
to Idle iff the state is still ACTION and the firing is a complete no-op
otherwise; the timer is started on entering ACTION exactly when the
accessibility mode is not AUDIO_ONLY (in AUDIO_ONLY the handler returns
before starting it). -/
theorem c8_theorem :
    (∀ m : OverlayStateMachine, m.state = OverlayState.ACTION →
      (hide_action m).1.state = OverlayState.IDLE ∧
      (hide_action m).1.previous_state = OverlayState.ACTION ∧
      (hide_action m).2 =
        notify_listeners m.listeners OverlayState.ACTION OverlayState.IDLE) ∧
    (∀ m : OverlayStateMachine, m.state ≠ OverlayState.ACTION →
      hide_action m = (m, [])) ∧
    (∀ mode, mode ≠ AccessibilityMode.AUDIO_ONLY →
      ∀ ns, on_state_changed_starts_timer mode ns = true ↔
        ns = OverlayState.ACTION) ∧
    (∀ ns, on_state_changed_starts_timer AccessibilityMode.AUDIO_ONLY ns =
      false) := by
  refine ⟨?_, ?_, ?_, ?_⟩
  · intro m h
    simp [hide_action, set_idle, transition_to, h]
  · intro m h
    simp [hide_action, h]
  · intro mode hmode ns
    simp [on_state_changed_starts_timer, hmode]
  · intro ns
    simp [on_state_changed_starts_timer]

/-- C8 (witness): the amended statement instantiated on a machine still in
ACTION, on the initial (Idle) machine, and on NORMAL mode. -/
theorem c8_witness :
    ((hide_action actionMachine).1.state = OverlayState.IDLE ∧
     (hide_action actionMachine).1.previous_state = OverlayState.ACTION ∧
     (hide_action actionMachine).2 =
       notify_listeners actionMachine.listeners OverlayState.ACTION
         OverlayState.IDLE) ∧
    hide_action initMachine = (initMachine, []) ∧
    on_state_changed_starts_timer AccessibilityMode.NORMAL
      OverlayState.ACTION = true :=
  ⟨c8_theorem.1 actionMachine rfl,
   c8_theorem.2.1 initMachine (by decide),
   (c8_theorem.2.2.1 AccessibilityMode.NORMAL (by decide)
     OverlayState.ACTION).mpr rfl⟩

/-- C9: `set_idle()` while already Idle is a complete no-op — zero listener
notifications and an unchanged machine (current and previous state
included). -/
theorem c9_theorem (m : OverlayStateMachine)
    (h : m.state = OverlayState.IDLE) : set_idle m = (m, []) := by
  unfold set_idle transition_to
  rw [if_neg]
  simp [h]

/-- C9 (witness): the statement instantiated on the freshly initialized
machine, which starts Idle. -/
theorem c9_witness : set_idle initMachine = (initMachine, []) :=
  c9_theorem initMachine rfl

/-- C10 (counterexample): `update_gesture` CAN empty `hand_landmarks` once
populated — the guard is `is not None`, not truthiness, so passing an
explicit empty list overwrites the field with `[]`. -/
theorem c10_counterexample :
    gestureMachine.gesture_data.hand_landmarks = [1, 2] ∧
    (update_gesture gestureMachine (some []) none none).gesture_data.hand_landmarks
      = [] :=
  ⟨rfl, rfl⟩

/-- C10 (amended): every argument passed as `None` leaves the corresponding
field at its prior value, the call never changes the current or previous
state, and the two Option fields (`active_finger`, `hover_key`) can never
be reset to `None` through `update_gesture`; `hand_landmarks`, however, can
be emptied by passing an explicit empty list. -/
theorem c10_theorem (m : OverlayStateMachine) (lm : Option (List Nat))
    (af : Option Int) (hk : Option String) :
    (update_gesture m lm af hk).state = m.state ∧
    (update_gesture m lm af hk).previous_state = m.previous_state ∧
    (lm = none → (update_gesture m lm af hk).gesture_data.hand_landmarks =
      m.gesture_data.hand_landmarks) ∧
    (af = none → (update_gesture m lm af hk).gesture_data.active_finger =
      m.gesture_data.active_finger) ∧
    (hk = none → (update_gesture m lm af hk).gesture_data.hover_key =
      m.gesture_data.hover_key) ∧
    ((update_gesture m lm af hk).gesture_data.active_finger = none →
      m.gesture_data.active_finger = none) ∧
    ((update_gesture m lm af hk).gesture_data.hover_key = none →
      m.gesture_data.hover_key = none) := by
  cases lm <;> cases af <;> cases hk <;>
    simp [update_gesture]

/-- C10 (witness): the amended statement instantiated on the populated
gesture machine with all three arguments `None`. -/
theorem c10_witness :
    (update_gesture gestureMachine none none none).gesture_data.hand_landmarks =
      gestureMachine.gesture_data.hand_landmarks ∧
    (update_gesture gestureMachine none none none).gesture_data.active_finger =
      gestureMachine.gesture_data.active_finger ∧
    (update_gesture gestureMachine none none none).gesture_data.hover_key =
      gestureMachine.gesture_data.hover_key ∧
    (update_gesture gestureMachine none none none).state =
      gestureMachine.state :=
  ⟨(c10_theorem gestureMachine none none none).2.2.1 rfl,
   (c10_theorem gestureMachine none none none).2.2.2.1 rfl,
   (c10_theorem gestureMachine none none none).2.2.2.2.1 rfl,
   (c10_theorem gestureMachine none none none).1⟩
